import Mathlib

/-!
Shallow embedding of the ACL engine of the `jira_q_connector` package
(`acl_manager.py`, the ACL-relevant wrappers of `jira_client.py`,
`qbusiness_client.py`'s batch upload, and the ACL attachment step of
`jira_connector.py`).

Conventions of the embedding:
* Python `None`-or-empty-string truthiness on optional string fields is
  modelled by `strVal` (`some ""` behaves like `none`).
* The Jira HTTP client methods used by the ACL code all catch every
  exception internally and return a default (`{}` or `[]`); accordingly the
  environment `JiraEnv` is a record of total functions, and a "not found /
  error" permission scheme is `none`.
* Python `set`s are modelled as duplicate-free lists built with
  `insertUniq` (insertion order; the code only ever observes them through
  `sorted(...)` or through membership, so insertion order is irrelevant).
-/

namespace JiraQ

/-- Python truthiness of an optional string: `None` and `""` are falsy. -/
def strVal : Option String → Option String
  | some s => if s = "" then none else some s
  | none => none

/-- Python truthiness of an optional integer: `None` and `0` are falsy. -/
def natVal : Option Nat → Option Nat
  | some n => if n = 0 then none else some n
  | none => none

/-- Add an element to a list-modelled set (`set.add`). -/
def insertUniq (l : List String) (x : String) : List String :=
  if x ∈ l then l else l ++ [x]

/-- Add many elements to a list-modelled set (`set.update`). -/
def insertAll (l : List String) (xs : List String) : List String :=
  xs.foldl insertUniq l

/-- Permission scheme object: `permission_scheme.get('id')`.  `none` at the
outer level models a falsy (`{}`/absent) scheme response. -/
structure SchemeObj where
  id : Option Nat := none
  deriving Repr, DecidableEq

/-- A grant holder: `grant.get('holder', {})` with `type` and `parameter`. -/
structure Holder where
  type : Option String := none
  parameter : Option String := none
  deriving Repr, DecidableEq

/-- A permission grant as returned by `get_permission_scheme_grants`. -/
structure Grant where
  permission : Option String := none
  holder : Holder := {}
  deriving Repr, DecidableEq

/-- A role actor: entries of `role_actors.get('actors', [])`. -/
structure Actor where
  type : Option String := none
  name : Option String := none
  deriving Repr, DecidableEq

/-- A group member as returned by `get_group_members`. -/
structure Member where
  emailAddress : Option String := none
  name : Option String := none
  deriving Repr, DecidableEq

/-- The identifier chosen for a member:
`member.get('emailAddress') or member.get('name')` (Python `or`, so an
empty email falls through to the name). -/
def memberId (m : Member) : Option String :=
  match strVal m.emailAddress with
  | some e => some e
  | none => strVal m.name

/-- The Jira client surface used by the ACL code.  Each method of
`JiraClient` wraps its HTTP call in `try/except` and returns `{}`/`[]` on
any error, so the functions are total and an error is indistinguishable
from an empty result. -/
structure JiraEnv where
  permissionScheme : String → Option SchemeObj
  schemeGrants : String → List Grant
  roleActors : String → String → List Actor
  groupMembers : String → List Member

/-- Body of `ACLManager._expand_group_to_users`: one `get_group_members`
call, each member's identifier added to the user set. -/
def expand_group_to_users (env : JiraEnv) (g : String) (users : List String) :
    List String :=
  (env.groupMembers g).foldl
    (fun us m =>
      match memberId m with
      | some e => insertUniq us e
      | none => us)
    users

/-- The two fallback groups added when no scheme / scheme id resolves:
`jira-project-<key>` and `jira-administrators`. -/
def fallbackGroups (key : String) : List String :=
  ["jira-project-" ++ key, "jira-administrators"]

/-- One role actor processed inside `get_document_acl`'s `projectRole`
branch: group actors are recorded and expanded to users, user actors are
recorded directly. -/
def docProcessActor (env : JiraEnv) (st : List String × List String)
    (a : Actor) : List String × List String :=
  match a.type with
  | some "atlassian-group-role-actor" =>
    match strVal a.name with
    | some g => (expand_group_to_users env g st.1, insertUniq st.2 g)
    | none => st
  | some "atlassian-user-role-actor" =>
    match strVal a.name with
    | some u => (insertUniq st.1 u, st.2)
    | none => st
  | _ => st

/-- One BROWSE_PROJECTS grant processed inside `get_document_acl`
(lines 311-352 of `acl_manager.py`): dispatch on the holder type. -/
def docProcessGrant (env : JiraEnv) (key : String)
    (st : List String × List String) (grant : Grant) :
    List String × List String :=
  match grant.holder.type with
  | some "group" =>
    match strVal grant.holder.parameter with
    | some g => (expand_group_to_users env g st.1, insertUniq st.2 g)
    | none => st
  | some "user" =>
    match strVal grant.holder.parameter with
    | some u => (insertUniq st.1 u, st.2)
    | none => st
  | some "projectRole" =>
    match strVal grant.holder.parameter with
    | some rid => (env.roleActors key rid).foldl (docProcessActor env) st
    | none => st
  | _ => st

/-- The user/group sets gathered by `get_document_acl` for a project key
when a Jira client is available (steps 1-4 of the docstring).  A falsy
scheme or scheme id falls back to the two default groups. -/
def aclSets (env : JiraEnv) (key : String) : List String × List String :=
  match env.permissionScheme key with
  | none => ([], fallbackGroups key)
  | some scheme =>
    match natVal scheme.id with
    | none => ([], fallbackGroups key)
    | some sid =>
      let grants := env.schemeGrants (toString sid)
      let browse := grants.filter (fun g => g.permission == some "BROWSE_PROJECTS")
      browse.foldl (docProcessGrant env key) ([], [])

/-- A user principal entry of the produced ACL payload. -/
structure UserPrincipal where
  id : String
  access : String
  membershipType : String
  deriving Repr, DecidableEq

/-- A group principal entry of the produced ACL payload. -/
structure GroupPrincipal where
  name : String
  access : String
  membershipType : String
  deriving Repr, DecidableEq

/-- One principal of the ACL payload. -/
inductive Principal where
  | user (u : UserPrincipal)
  | group (g : GroupPrincipal)
  deriving Repr, DecidableEq

/-- One entry of `accessControls`. -/
structure AccessControl where
  principals : List Principal
  memberRelation : String
  deriving Repr, DecidableEq

/-- The `accessConfiguration` payload returned by `get_document_acl`. -/
structure AccessCfg where
  accessControls : List AccessControl
  deriving Repr, DecidableEq

/-- Lexicographic order on strings by code points, exactly Python's string
comparison (stated on the character list so that it evaluates). -/
def strLe (a b : String) : Prop := a.data ≤ b.data

instance : DecidableRel strLe :=
  fun a b => inferInstanceAs (Decidable (a.data ≤ b.data))

instance : IsTotal String strLe := ⟨fun a b => le_total a.data b.data⟩

instance : IsTrans String strLe := ⟨fun _ _ _ h1 h2 => le_trans h1 h2⟩

instance : IsAntisymm String strLe :=
  ⟨fun _ _ h1 h2 => String.ext (le_antisymm h1 h2)⟩

/-- Python `sorted` over a set: deduplicate, then sort lexicographically. -/
def sortStrings (l : List String) : List String :=
  List.insertionSort strLe l.dedup

/-- Lines 364-385 of `acl_manager.py`: users first (sorted), then groups
(sorted), each with `access='ALLOW'` and `membershipType='DATASOURCE'`. -/
def buildPrincipals (users groups : List String) : List Principal :=
  (sortStrings users).map (fun u => Principal.user ⟨u, "ALLOW", "DATASOURCE"⟩)
    ++ (sortStrings groups).map (fun g => Principal.group ⟨g, "ALLOW", "DATASOURCE"⟩)

/-- Lines 390-399: the full access configuration with one access control
under `memberRelation='OR'`. -/
def buildAccessCfg (users groups : List String) : AccessCfg :=
  ⟨[⟨buildPrincipals users groups, "OR"⟩]⟩

/-- Project object under an issue's fields. -/
structure ProjectObj where
  key : Option String := none
  deriving Repr, DecidableEq

/-- The fields of an issue (only the project is relevant to the ACL). -/
structure Fields where
  project : Option ProjectObj := none
  deriving Repr, DecidableEq

/-- A Jira issue as seen by the ACL code. -/
structure Issue where
  key : Option String := none
  fields : Fields := {}
  deriving Repr, DecidableEq

/-- `ACLManager.get_document_acl`: `none` when the issue has no project
object or no truthy project key; otherwise the access configuration built
from the resolved sets (or from the default groups when no client is
passed). -/
def get_document_acl (env : Option JiraEnv) (issue : Issue) :
    Option AccessCfg :=
  match issue.fields.project with
  | none => none
  | some proj =>
    match strVal proj.key with
    | none => none
    | some key =>
      let sets :=
        match env with
        | some e => aclSets e key
        | none => ([], fallbackGroups key)
      some (buildAccessCfg sets.1 sets.2)

/-- The principals of the single access control of a configuration. -/
def topPrincipals : Option AccessCfg → List Principal
  | some ⟨[ac]⟩ => ac.principals
  | _ => []

/-- The display name of a principal (user id or group name). -/
def principalName : Principal → String
  | .user u => u.id
  | .group g => g.name

/-- Quote a string as a JSON string literal. -/
def jq (s : String) : String := "\"" ++ s ++ "\""

/-- Canonical byte rendering of one principal, field order as constructed
by the source (dict insertion order). -/
def renderPrincipal : Principal → String
  | .user u =>
    "\x7b\"user\": \x7b\"id\": " ++ jq u.id ++ ", \"access\": " ++ jq u.access
      ++ ", \"membershipType\": " ++ jq u.membershipType ++ "\x7d\x7d"
  | .group g =>
    "\x7b\"group\": \x7b\"name\": " ++ jq g.name ++ ", \"access\": " ++ jq g.access
      ++ ", \"membershipType\": " ++ jq g.membershipType ++ "\x7d\x7d"

/-- Render a JSON array. -/
def renderArr (f : α → String) (xs : List α) : String :=
  "[" ++ String.intercalate ", " (xs.map f) ++ "]"

/-- Canonical byte rendering of one access control. -/
def renderAccessControl (ac : AccessControl) : String :=
  "\x7b\"principals\": " ++ renderArr renderPrincipal ac.principals
    ++ ", \"memberRelation\": " ++ jq ac.memberRelation ++ "\x7d"

/-- Canonical byte rendering of the whole payload. -/
def renderAccessCfg (cfg : AccessCfg) : String :=
  "\x7b\"accessConfiguration\": \x7b\"accessControls\": "
    ++ renderArr renderAccessControl cfg.accessControls ++ "\x7d\x7d"

/-- The principal shape claimed by the spec's compatibility contract
(section 6): a group principal with only `name` and `access` fields.
Modelled from the spec for comparison with the source's payload. -/
structure SpecGroupPrincipal where
  name : String
  access : String
  deriving Repr, DecidableEq

/-- Byte rendering of the spec-claimed group principal shape, with the
same separators as `renderPrincipal` so that any difference is a
difference of fields or order, not of formatting. -/
def renderSpecGroupPrincipal (g : SpecGroupPrincipal) : String :=
  "\x7b\"group\": \x7b\"name\": " ++ jq g.name ++ ", \"access\": " ++ jq g.access
    ++ "\x7d\x7d"

/-! ### The ACL manager's run state and group expansion trace

`ACLManager.__init__` creates two cache dictionaries.  Nothing else in the
class ever reads or writes them, so `expand_group_traced` returns the
state unchanged and records the one `get_group_members` call its body
makes. -/

/-- The mutable state of one `ACLManager` instance: the two caches set up
by `__init__`, both empty at construction. -/
structure ACLManagerState where
  project_permissions_cache : List (String × String) := []
  group_members_cache : List (String × List Member) := []
  deriving Repr, DecidableEq

/-- `ACLManager._expand_group_to_users` with its externally observable
effects: the updated user set, the (unchanged) manager state, and the
trace of external group-member lookups the call performs.  The body calls
`jira_client.get_group_members(group_name)` exactly once and never touches
either cache, so the trace is `[g]` and the state is returned as is. -/
def expand_group_traced (env : JiraEnv) (st : ACLManagerState) (g : String)
    (users : List String) : ACLManagerState × List String × List String :=
  (st, expand_group_to_users env g users, [g])

/-- Two successive expansions of the same group on one manager instance,
threading the state and concatenating the lookup traces. -/
def expandTwice (env : JiraEnv) (st : ACLManagerState) (g : String) :
    ACLManagerState × List String × List String :=
  let r1 := expand_group_traced env st g []
  let r2 := expand_group_traced env r1.1 g r1.2.1
  (r2.1, r2.2.1, r1.2.2 ++ r2.2.2)

/-! ### The synchronization run (`sync_jira_acl_to_qbusiness`) -/

/-- A project as returned by `get_all_projects`. -/
structure Project where
  key : Option String := none
  deriving Repr, DecidableEq

/-- `JiraClient.get_all_projects`: the HTTP request either succeeds with a
project list or raises; the method catches every exception and returns an
empty list (lines 355-370 of `jira_client.py`). -/
def get_all_projects (raw : Except Unit (List Project)) : List Project :=
  match raw with
  | .ok ps => ps
  | .error _ => []

/-- `ACLManager._process_permission_grant` (lines 155-203): extract the
users and groups a grant implies.  Note that for a `projectRole` holder
the group actors are only recorded as groups; their members are not
resolved here. -/
def process_permission_grant (env : JiraEnv) (key : String) (grant : Grant) :
    List String × List String :=
  match grant.holder.type with
  | some "group" =>
    match strVal grant.holder.parameter with
    | some g => ([], [g])
    | none => ([], [])
  | some "user" =>
    match strVal grant.holder.parameter with
    | some u => ([u], [])
    | none => ([], [])
  | some "projectRole" =>
    match strVal grant.holder.parameter with
    | some rid =>
      (env.roleActors key rid).foldl
        (fun st a =>
          match a.type with
          | some "atlassian-group-role-actor" =>
            match strVal a.name with
            | some g => (st.1, insertUniq st.2 g)
            | none => st
          | some "atlassian-user-role-actor" =>
            match strVal a.name with
            | some u => (insertUniq st.1 u, st.2)
            | none => st
          | _ => st)
        ([], [])
    | none => ([], [])
  | _ => ([], [])

/-- Per-group bookkeeping of the run: `{'members': set, 'projects': set}`. -/
structure GroupInfo where
  members : List String := []
  projects : List String := []
  deriving Repr, DecidableEq

/-- The run's accumulated principal sets: `all_users` and `all_groups`. -/
structure SyncAcc where
  users : List String := []
  groups : List (String × GroupInfo) := []
  deriving Repr, DecidableEq

/-- Ensure a group has an entry in `all_groups` (lines 103-104). -/
def agInsertDefault (l : List (String × GroupInfo)) (g : String) :
    List (String × GroupInfo) :=
  if (l.lookup g).isSome then l else l ++ [(g, { members := [], projects := [] })]

/-- Update the entry of one group in `all_groups`. -/
def agModify (l : List (String × GroupInfo)) (g : String)
    (f : GroupInfo → GroupInfo) : List (String × GroupInfo) :=
  l.map (fun p => if p.1 = g then (p.1, f p.2) else p)

/-- The member identifiers of a group as gathered by the sync loop
(lines 109-115: email, falling back to name, skipped when both falsy). -/
def groupMemberIds (env : JiraEnv) (g : String) : List String :=
  (env.groupMembers g).filterMap memberId

/-- Registration of one discovered group inside the sync loop
(lines 102-117): ensure the group's entry, record the project, fetch the
group's members and merge them into both the group record and the global
user set. -/
def syncGroupStep (env : JiraEnv) (key : String) (acc : SyncAcc)
    (g : String) : SyncAcc :=
  let ag := agInsertDefault acc.groups g
  let ag := agModify ag g (fun gi => { gi with projects := insertUniq gi.projects key })
  let emails := groupMemberIds env g
  { users := insertAll acc.users emails,
    groups := agModify ag g (fun gi => { gi with members := insertAll gi.members emails }) }

/-- Processing of one BROWSE_PROJECTS grant inside the sync loop
(lines 93-117): expand the grant, merge its users, then register each of
its groups. -/
def syncGrantStep (env : JiraEnv) (key : String) (acc : SyncAcc)
    (grant : Grant) : SyncAcc :=
  let ug := process_permission_grant env key grant
  ug.2.foldl (syncGroupStep env key) { acc with users := insertAll acc.users ug.1 }

/-- Processing of one project inside the sync loop (lines 66-123).  A
falsy project key, a falsy permission scheme or a falsy scheme id skips
the project (`continue`) without incrementing the processed count. -/
def syncProjectStep (env : JiraEnv) (st : SyncAcc × Nat) (proj : Project) :
    SyncAcc × Nat :=
  match strVal proj.key with
  | none => st
  | some key =>
    match env.permissionScheme key with
    | none => st
    | some scheme =>
      match natVal scheme.id with
      | none => st
      | some sid =>
        let grants := env.schemeGrants (toString sid)
        let browse := grants.filter (fun g => g.permission == some "BROWSE_PROJECTS")
        (browse.foldl (syncGrantStep env key) st.1, st.2 + 1)

/-- One interaction with the Q Business user store. -/
inductive QOp where
  | getUser (id : String)
  | createUser (id : String)
  | updateUser (id : String)
  deriving Repr, DecidableEq

/-- `ACLManager._sync_user_to_qbusiness` (lines 205-243): one existence
check, then one update when the user exists and one create otherwise. -/
def sync_user_ops (userExists : String → Bool) (u : String) : List QOp :=
  [QOp.getUser u, if userExists u then QOp.updateUser u else QOp.createUser u]

/-- The outcome of one `sync_jira_acl_to_qbusiness` run: the returned
success flag and stats, together with the run's discovered principal sets
and the trace of user-store operations. -/
structure SyncResult where
  success : Bool
  users_processed : Nat
  groups_processed : Nat
  projects_processed : Nat
  all_users : List String
  all_groups : List (String × GroupInfo)
  ops : List QOp
  deriving Repr, DecidableEq

/-- `ACLManager.sync_jira_acl_to_qbusiness` (lines 21-153).  Every Jira
client method used here swallows its own errors, and per-user sync errors
are caught by the loop, so the outer exception handler never fires and the
run always returns `success=True`.  Group synchronization is disabled:
discovered groups are only counted. -/
def sync_jira_acl_to_qbusiness (raw : Except Unit (List Project))
    (env : JiraEnv) (project_keys : Option (List String))
    (userExists : String → Bool) : SyncResult :=
  let all_projects := get_all_projects raw
  let projects :=
    match project_keys with
    | none => all_projects
    | some [] => all_projects
    | some ks =>
      all_projects.filter (fun p =>
        match p.key with
        | some k => ks.contains k
        | none => false)
  let r := projects.foldl (syncProjectStep env) (({} : SyncAcc), 0)
  let acc := r.1
  { success := true
    users_processed := acc.users.length
    groups_processed := acc.groups.length
    projects_processed := r.2
    all_users := acc.users
    all_groups := acc.groups
    ops := acc.users.flatMap (sync_user_ops userExists) }

/-- Whether an operation is a create-or-update write for the given id. -/
def isWriteFor (u : String) : QOp → Bool
  | .createUser v => v == u
  | .updateUser v => v == u
  | .getUser _ => false

/-- Whether an operation is an existence check for the given id. -/
def isCheckFor (u : String) : QOp → Bool
  | .getUser v => v == u
  | _ => false

/-! ### Document upload (`qbusiness_client.py`, `jira_connector.py`) -/

/-- The result dictionary of `batch_put_documents_with_execution_id`. -/
structure UploadResult where
  success : Bool
  uploaded_count : Int
  failed_count : Nat
  deriving Repr, DecidableEq

/-- `QBusinessClient.batch_put_documents_with_execution_id`
(lines 175-243): at most 10 documents are submitted per call; a longer
list is truncated to its first 10 entries before the single
`batch_put_document` request.  `failedOf` models the store's
`failedDocuments` response for the submitted batch.  The second component
is the list of documents actually submitted to the store. -/
def batch_put_documents_with_execution_id (docs : List String)
    (failedOf : List String → List String) : UploadResult × List String :=
  if docs.isEmpty then
    ({ success := true, uploaded_count := 0, failed_count := 0 }, [])
  else
    let batch_size := min docs.length 10
    let docs' := if batch_size < docs.length then docs.take batch_size else docs
    let failed := failedOf docs'
    ({ success := true
       uploaded_count := (docs'.length : Int) - failed.length
       failed_count := failed.length }, docs')

/-- A Q Business document as built by the batch processor: its identity
and the optional attached access configuration (absent when built by
`process_issue`). -/
structure QDoc where
  docId : String
  accessConfiguration : Option AccessCfg := none
  deriving Repr, DecidableEq

/-- Lines 274-277 of `jira_connector.py`: attach the ACL to the document
only when `get_document_acl` returned one (`if acl_info: doc.update(acl_info)`). -/
def attach_acl (env : Option JiraEnv) (issue : Issue) (doc : QDoc) : QDoc :=
  match get_document_acl env issue with
  | some cfg => { doc with accessConfiguration := some cfg }
  | none => doc

/-! ### Concrete environments and inputs used as test scenarios -/

/-- A tracker environment with no permission schemes, no grants, no roles
and no group members (every lookup comes back empty). -/
def envNoScheme : JiraEnv :=
  { permissionScheme := fun _ => none
    schemeGrants := fun _ => []
    roleActors := fun _ _ => []
    groupMembers := fun _ => [] }

/-- An issue of project `ORPHAN`. -/
def issueORPHAN : Issue :=
  { key := some "ORPHAN-1", fields := { project := some { key := some "ORPHAN" } } }

/-- An issue of project `PROJ`. -/
def issuePROJ : Issue :=
  { key := some "PROJ-1", fields := { project := some { key := some "PROJ" } } }

/-- The ACL the source builds for an issue whose project has no
permission scheme: the two fallback groups in sorted order
(`jira-administrators` before `jira-project-ORPHAN`), each with
`access='ALLOW'` and `membershipType='DATASOURCE'`, under
`memberRelation='OR'`. -/
def orphanCfg : AccessCfg :=
  ⟨[⟨[Principal.group ⟨"jira-administrators", "ALLOW", "DATASOURCE"⟩,
      Principal.group ⟨"jira-project-ORPHAN", "ALLOW", "DATASOURCE"⟩], "OR"⟩]⟩

/-- The principals the spec's Scenario B claims for project `ORPHAN`:
project group first, administrators second, with only `name` and
`access` fields.  Modelled from the spec for comparison. -/
def specClaimedOrphanPrincipals : List SpecGroupPrincipal :=
  [⟨"jira-project-ORPHAN", "ALLOW"⟩, ⟨"jira-administrators", "ALLOW"⟩]

/-- A tracker environment whose only grant on the resolved scheme is a
non-browse (`EDIT_ISSUES`) group grant: the scheme resolves but the
BROWSE_PROJECTS grant list is empty. -/
def envNoBrowse : JiraEnv :=
  { permissionScheme := fun _ => some { id := some 10000 }
    schemeGrants := fun _ =>
      [{ permission := some "EDIT_ISSUES"
         holder := { type := some "group", parameter := some "devs" } }]
    roleActors := fun _ _ => []
    groupMembers := fun _ => [] }

/-- The BROWSE_PROJECTS grant of the spec's Scenario A: a `projectRole`
holder referencing role `10002`. -/
def grantDevRole : Grant :=
  { permission := some "BROWSE_PROJECTS"
    holder := { type := some "projectRole", parameter := some "10002" } }

/-- The tracker environment of the spec's Scenario A: project `PROJ`'s
scheme grants browse to role `10002`, whose single actor is the group
`dev-team` with members alice and bob. -/
def envDevRole : JiraEnv :=
  { permissionScheme := fun _ => some { id := some 10000 }
    schemeGrants := fun _ => [grantDevRole]
    roleActors := fun _ rid =>
      if rid = "10002" then
        [{ type := some "atlassian-group-role-actor", name := some "dev-team" }]
      else []
    groupMembers := fun g =>
      if g = "dev-team" then
        [{ emailAddress := some "alice@x.com", name := some "alice" },
         { emailAddress := some "bob@x.com", name := some "bob" }]
      else [] }

/-- The manager state right after `ACLManager.__init__`. -/
def aclInitState : ACLManagerState := {}

/-- Two lists represent the same set of strings. -/
def sameSet (a b : List String) : Prop := ∀ x, x ∈ a ↔ x ∈ b

/-! ### Helper lemmas -/

theorem mem_insertUniq {l : List String} {x y : String} :
    x ∈ insertUniq l y ↔ x ∈ l ∨ x = y := by
  unfold insertUniq
  by_cases h : y ∈ l
  · simp only [if_pos h]
    constructor
    · exact Or.inl
    · rintro (hx | rfl)
      · exact hx
      · exact h
  · simp [if_neg h, List.mem_append]

theorem nodup_insertUniq {l : List String} {x : String} (h : l.Nodup) :
    (insertUniq l x).Nodup := by
  unfold insertUniq
  by_cases hx : x ∈ l
  · simpa [if_pos hx] using h
  · simp only [if_neg hx]
    simpa [List.nodup_append] using ⟨h, hx⟩

theorem mem_insertAll {xs l : List String} {x : String} :
    x ∈ insertAll l xs ↔ x ∈ l ∨ x ∈ xs := by
  induction xs generalizing l with
  | nil => simp [insertAll]
  | cons y ys ih =>
    have hstep : insertAll l (y :: ys) = insertAll (insertUniq l y) ys := rfl
    rw [hstep, ih, mem_insertUniq]
    simp [List.mem_cons, or_assoc]

theorem nodup_insertAll {xs l : List String} (h : l.Nodup) :
    (insertAll l xs).Nodup := by
  induction xs generalizing l with
  | nil => exact h
  | cons y ys ih => exact ih (nodup_insertUniq h)

theorem sortStrings_eq_of_sameSet {a b : List String} (h : sameSet a b) :
    sortStrings a = sortStrings b := by
  have hperm : a.dedup.Perm b.dedup :=
    (List.perm_ext_iff_of_nodup (List.nodup_dedup a) (List.nodup_dedup b)).mpr
      (fun x => by simpa using h x)
  exact List.eq_of_perm_of_sorted
    (((List.perm_insertionSort strLe a.dedup).trans hperm).trans
      (List.perm_insertionSort strLe b.dedup).symm)
    (List.sorted_insertionSort strLe a.dedup)
    (List.sorted_insertionSort strLe b.dedup)

/-- For any environment in which project `ORPHAN` has no (truthy)
permission scheme, `get_document_acl` returns the fallback configuration:
the two default groups, sorted, with full principal shape, under
`memberRelation='OR'`. -/
theorem orphan_fallback_acl (env : JiraEnv)
    (h : env.permissionScheme "ORPHAN" = none) :
    get_document_acl (some env) issueORPHAN = some orphanCfg := by
  have hsets : aclSets env "ORPHAN" = ([], fallbackGroups "ORPHAN") := by
    unfold aclSets
    rw [h]
  have hred : get_document_acl (some env) issueORPHAN
      = some (buildAccessCfg (aclSets env "ORPHAN").1 (aclSets env "ORPHAN").2) := by
    simp [get_document_acl, issueORPHAN, strVal]
  rw [hred, hsets]
  decide

/-! ### Claim C1 -/

/-- Claim C1, counterexample: for an issue whose project's scheme resolves
but whose grants contain no BROWSE_PROJECTS entry, `get_document_acl`
returns an ACL whose principals list is empty — the fallback principals
are not substituted. -/
theorem C1_counterexample :
    (get_document_acl (some envNoBrowse) issuePROJ).isSome = true ∧
    topPrincipals (get_document_acl (some envNoBrowse) issuePROJ) = [] := by
  decide

/-- Claim C1, amended: when the project's permission scheme resolves with
a truthy scheme id and the scheme has no BROWSE_PROJECTS grants, the
returned ACL has an empty principals list; the fallback principals are
substituted only when the scheme or its id fails to resolve (or the
resolution raises), not when the resolved grant sets are empty. -/
theorem C1_theorem (env : JiraEnv) (issue : Issue) (p : ProjectObj)
    (key : String) (sid : Nat)
    (hp : issue.fields.project = some p) (hk : strVal p.key = some key)
    (hs : env.permissionScheme key = some { id := some sid }) (hsid : sid ≠ 0)
    (hg : (env.schemeGrants (toString sid)).filter
        (fun g => g.permission == some "BROWSE_PROJECTS") = []) :
    get_document_acl (some env) issue = some (buildAccessCfg [] []) ∧
    topPrincipals (get_document_acl (some env) issue) = [] := by
  have hsets : aclSets env key = ([], []) := by
    unfold aclSets
    rw [hs]
    simp [natVal, hsid, hg]
  have hacl : get_document_acl (some env) issue = some (buildAccessCfg [] []) := by
    simp [get_document_acl, hp, hk, hsets]
  refine ⟨hacl, ?_⟩
  rw [hacl]
  decide

/-- Claim C1, witness: the concrete no-browse-grants environment yields an
ACL with an empty principals list. -/
theorem C1_witness :
    get_document_acl (some envNoBrowse) issuePROJ = some (buildAccessCfg [] []) ∧
    topPrincipals (get_document_acl (some envNoBrowse) issuePROJ) = [] :=
  C1_theorem envNoBrowse issuePROJ { key := some "PROJ" } "PROJ" 10000
    rfl (by decide) rfl (by decide) (by decide)

/-! ### Claim C3 -/

/-- Claim C3, counterexample: for project `ORPHAN` with no permission
scheme the source puts `jira-administrators` first (sorted order), not
`jira-project-ORPHAN`, and each group principal carries an additional
`membershipType` field, so the claimed principal list and bit-exact shape
are both wrong. -/
theorem C3_counterexample :
    (topPrincipals (get_document_acl (some envNoScheme) issueORPHAN)).map principalName
      = ["jira-administrators", "jira-project-ORPHAN"] ∧
    (((topPrincipals (get_document_acl (some envNoScheme) issueORPHAN)).map principalName
      = ["jira-project-ORPHAN", "jira-administrators"]) → False) ∧
    ((renderArr renderPrincipal
        (topPrincipals (get_document_acl (some envNoScheme) issueORPHAN))
      = renderArr renderSpecGroupPrincipal specClaimedOrphanPrincipals) → False) := by
  refine ⟨by decide, by decide, by decide⟩

/-- Claim C3, amended: for an issue of a project with no permission scheme
the returned ACL has principals exactly
`[{group: jira-administrators}, {group: jira-project-ORPHAN}]` in sorted
order, each in the shape
`{"group": {"name": .., "access": "ALLOW", "membershipType": "DATASOURCE"}}`,
under `memberRelation='OR'`. -/
theorem C3_theorem (env : JiraEnv)
    (h : env.permissionScheme "ORPHAN" = none) :
    get_document_acl (some env) issueORPHAN = some orphanCfg :=
  orphan_fallback_acl env h

/-- Claim C3, witness: the amended ACL computed in the concrete
no-scheme environment. -/
theorem C3_witness :
    get_document_acl (some envNoScheme) issueORPHAN = some orphanCfg :=
  C3_theorem envNoScheme rfl

/-! ### Claim C2 -/

/-- Claim C2, counterexample: on a fresh `ACLManager`, expanding the same
group twice performs two external group-member lookups, not one — the
`group_members_cache` created by `__init__` is never consulted, so the
second call is not cache-served. -/
theorem C2_counterexample :
    (expandTwice envNoScheme aclInitState "developers").2.2
        = ["developers", "developers"] ∧
    (((expandTwice envNoScheme aclInitState "developers").2.2.countP
        (· == "developers") = 1) → False) := by
  constructor
  · rfl
  · decide

/-- Claim C2, amended: every call of `_expand_group_to_users` performs
exactly one external group-member lookup and leaves the caches untouched,
so expanding the same group twice in one run performs exactly two external
lookups (the run-scoped cache exists but is never read). -/
theorem C2_theorem (env : JiraEnv) (st : ACLManagerState) (g : String) :
    (expandTwice env st g).2.2 = [g, g] ∧
    (expandTwice env st g).1 = st ∧
    (expand_group_traced env st g []).2.2 = [g] := by
  exact ⟨rfl, rfl, rfl⟩

/-! ### Claim C4 -/

/-- Claim C4: ACL building is deterministic — two builds from identical
resolved user and group sets produce equal payloads and byte-identical
renderings, and the principals appear in a fixed order: user principals
sorted lexicographically by id, followed by group principals sorted
lexicographically by name. -/
theorem C4_theorem (u1 g1 u2 g2 : List String)
    (hu : sameSet u1 u2) (hg : sameSet g1 g2) :
    buildAccessCfg u1 g1 = buildAccessCfg u2 g2 ∧
    renderAccessCfg (buildAccessCfg u1 g1)
      = renderAccessCfg (buildAccessCfg u2 g2) ∧
    buildPrincipals u1 g1
      = (sortStrings u1).map (fun u => Principal.user ⟨u, "ALLOW", "DATASOURCE"⟩)
        ++ (sortStrings g1).map (fun g => Principal.group ⟨g, "ALLOW", "DATASOURCE"⟩) ∧
    List.Sorted strLe (sortStrings u1) ∧
    List.Sorted strLe (sortStrings g1) := by
  have hcfg : buildAccessCfg u1 g1 = buildAccessCfg u2 g2 := by
    unfold buildAccessCfg buildPrincipals
    rw [sortStrings_eq_of_sameSet hu, sortStrings_eq_of_sameSet hg]
  exact ⟨hcfg, by rw [hcfg], rfl,
    List.sorted_insertionSort strLe u1.dedup,
    List.sorted_insertionSort strLe g1.dedup⟩

/-- Claim C4, witness: a concrete pair of resolved sets given in different
orders and with duplicates produces identical payloads. -/
theorem C4_witness :
    buildAccessCfg ["bob", "alice", "bob"] ["g2", "g1"]
      = buildAccessCfg ["alice", "bob"] ["g1", "g2", "g1"] ∧
    renderAccessCfg (buildAccessCfg ["bob", "alice", "bob"] ["g2", "g1"])
      = renderAccessCfg (buildAccessCfg ["alice", "bob"] ["g1", "g2", "g1"]) ∧
    buildPrincipals ["bob", "alice", "bob"] ["g2", "g1"]
      = (sortStrings ["bob", "alice", "bob"]).map
          (fun u => Principal.user ⟨u, "ALLOW", "DATASOURCE"⟩)
        ++ (sortStrings ["g2", "g1"]).map
          (fun g => Principal.group ⟨g, "ALLOW", "DATASOURCE"⟩) ∧
    List.Sorted strLe (sortStrings ["bob", "alice", "bob"]) ∧
    List.Sorted strLe (sortStrings ["g2", "g1"]) :=
  C4_theorem ["bob", "alice", "bob"] ["g2", "g1"] ["alice", "bob"] ["g1", "g2", "g1"]
    (by intro x; constructor <;> (intro hx; simp at hx ⊢; tauto))
    (by intro x; constructor <;> (intro hx; simp at hx ⊢; tauto))

/-! ### Claim C5 -/

/-- Claim C5, counterexample: for a project-role grant whose role actor is
the group `dev-team` with members alice and bob,
`_process_permission_grant` returns the group only — the returned user
set is empty and does not include alice. -/
theorem C5_counterexample :
    process_permission_grant envDevRole "PROJ" grantDevRole = ([], ["dev-team"]) ∧
    (("alice@x.com" ∈ (process_permission_grant envDevRole "PROJ" grantDevRole).1)
      → False) := by
  refine ⟨rfl, by decide⟩

/-- Claim C5, amended: for a project-role grant whose actors are the
single group actor `gname`, `_process_permission_grant` returns
`groups={gname}` and an empty user set; the group's members are resolved
into the run's user set by the caller (`sync_jira_acl_to_qbusiness`,
lines 108-117), not by `_process_permission_grant` itself. -/
theorem C5_theorem (env : JiraEnv) (key rid gname : String) (grant : Grant)
    (hh : grant.holder = { type := some "projectRole", parameter := some rid })
    (hrid : rid ≠ "")
    (ha : env.roleActors key rid
        = [{ type := some "atlassian-group-role-actor", name := some gname }])
    (hg : gname ≠ "") :
    process_permission_grant env key grant = ([], [gname]) ∧
    ∀ m ∈ groupMemberIds env gname,
      m ∈ (syncGrantStep env key ({} : SyncAcc) grant).users := by
  have hpg : process_permission_grant env key grant = ([], [gname]) := by
    unfold process_permission_grant
    rw [hh]
    simp [strVal, hrid, ha, hg, insertUniq]
  refine ⟨hpg, ?_⟩
  intro m hm
  have hstep : (syncGrantStep env key ({} : SyncAcc) grant).users
      = insertAll [] (groupMemberIds env gname) := by
    simp only [syncGrantStep, hpg, syncGroupStep, List.foldl_cons, List.foldl_nil]
    rfl
  rw [hstep]
  exact mem_insertAll.mpr (Or.inr hm)

/-- Claim C5, witness: the Scenario A environment — the grant expansion
returns only the group, and alice and bob enter the user set through the
caller's per-group member merge. -/
theorem C5_witness :
    process_permission_grant envDevRole "PROJ" grantDevRole = ([], ["dev-team"]) ∧
    "alice@x.com" ∈ (syncGrantStep envDevRole "PROJ" ({} : SyncAcc) grantDevRole).users ∧
    "bob@x.com" ∈ (syncGrantStep envDevRole "PROJ" ({} : SyncAcc) grantDevRole).users :=
  ⟨(C5_theorem envDevRole "PROJ" "10002" "dev-team" grantDevRole rfl (by decide)
      (by decide) (by decide)).1,
   (C5_theorem envDevRole "PROJ" "10002" "dev-team" grantDevRole rfl (by decide)
      (by decide) (by decide)).2 "alice@x.com" (by decide),
   (C5_theorem envDevRole "PROJ" "10002" "dev-team" grantDevRole rfl (by decide)
      (by decide) (by decide)).2 "bob@x.com" (by decide)⟩

/-! ### Claim C6 -/

theorem foldl_groupStep_users_nodup (env : JiraEnv) (key : String)
    (gs : List String) {acc : SyncAcc} (h : acc.users.Nodup) :
    (gs.foldl (syncGroupStep env key) acc).users.Nodup := by
  induction gs generalizing acc with
  | nil => exact h
  | cons g gs ih => exact ih (nodup_insertAll h)

theorem syncGrantStep_users_nodup (env : JiraEnv) (key : String)
    {acc : SyncAcc} (grant : Grant) (h : acc.users.Nodup) :
    (syncGrantStep env key acc grant).users.Nodup :=
  foldl_groupStep_users_nodup env key _ (nodup_insertAll h)

theorem foldl_grantStep_users_nodup (env : JiraEnv) (key : String)
    (grants : List Grant) {acc : SyncAcc} (h : acc.users.Nodup) :
    (grants.foldl (syncGrantStep env key) acc).users.Nodup := by
  induction grants generalizing acc with
  | nil => exact h
  | cons g gs ih => exact ih (syncGrantStep_users_nodup env key g h)

theorem syncProjectStep_users_nodup (env : JiraEnv) {st : SyncAcc × Nat}
    (proj : Project) (h : st.1.users.Nodup) :
    (syncProjectStep env st proj).1.users.Nodup := by
  unfold syncProjectStep
  split
  · exact h
  split
  · exact h
  split
  · exact h
  · exact foldl_grantStep_users_nodup env _ _ h

theorem foldl_projectStep_users_nodup (env : JiraEnv) (ps : List Project)
    {st : SyncAcc × Nat} (h : st.1.users.Nodup) :
    (ps.foldl (syncProjectStep env) st).1.users.Nodup := by
  induction ps generalizing st with
  | nil => exact h
  | cons p ps ih => exact ih (syncProjectStep_users_nodup env p h)

theorem sync_all_users_nodup (raw : Except Unit (List Project)) (env : JiraEnv)
    (pk : Option (List String)) (ue : String → Bool) :
    (sync_jira_acl_to_qbusiness raw env pk ue).all_users.Nodup := by
  exact foldl_projectStep_users_nodup env _ List.nodup_nil

theorem writes_count_flatMap (ue : String → Bool) (l : List String) (u : String) :
    ((l.flatMap (sync_user_ops ue)).filter (isWriteFor u)).length = l.count u := by
  induction l with
  | nil => rfl
  | cons v vs ih =>
    simp only [List.flatMap_cons, List.filter_append, List.length_append, ih,
      List.count_cons]
    by_cases hv : v = u
    · subst hv
      cases hue : ue v <;> simp [sync_user_ops, isWriteFor, hue, Nat.add_comm]
    · have hvb : (v == u) = false := by simpa using hv
      cases hue : ue v <;> simp [sync_user_ops, isWriteFor, hue, hvb]

theorem checks_count_flatMap (ue : String → Bool) (l : List String) (u : String) :
    ((l.flatMap (sync_user_ops ue)).filter (isCheckFor u)).length = l.count u := by
  induction l with
  | nil => rfl
  | cons v vs ih =>
    simp only [List.flatMap_cons, List.filter_append, List.length_append, ih,
      List.count_cons]
    by_cases hv : v = u
    · subst hv
      cases hue : ue v <;> simp [sync_user_ops, isCheckFor, hue, Nat.add_comm]
    · have hvb : (v == u) = false := by simpa using hv
      cases hue : ue v <;> simp [sync_user_ops, isCheckFor, hue, hvb]

/-- Claim C6: in every synchronization run, each unique user id receives
at most one create-or-update write and at most one existence check
against the user store — the run deduplicates all discovered users into a
single set before syncing, however many projects, grants or groups
reference the id. -/
theorem C6_theorem (raw : Except Unit (List Project)) (env : JiraEnv)
    (pk : Option (List String)) (ue : String → Bool) (u : String) :
    ((sync_jira_acl_to_qbusiness raw env pk ue).ops.filter (isWriteFor u)).length ≤ 1 ∧
    ((sync_jira_acl_to_qbusiness raw env pk ue).ops.filter (isCheckFor u)).length ≤ 1 := by
  have hc : (sync_jira_acl_to_qbusiness raw env pk ue).all_users.count u ≤ 1 :=
    List.nodup_iff_count_le_one.mp (sync_all_users_nodup raw env pk ue) u
  have hops : (sync_jira_acl_to_qbusiness raw env pk ue).ops
      = (sync_jira_acl_to_qbusiness raw env pk ue).all_users.flatMap
          (sync_user_ops ue) := rfl
  constructor
  · rw [hops, writes_count_flatMap]
    exact hc
  · rw [hops, checks_count_flatMap]
    exact hc

/-! ### Claim C7 -/

/-- Claim C7, counterexample: when every project-listing request raises,
the run does not return `success=false` — `get_all_projects` swallows the
error and returns an empty list, and the run completes with
`success=true`. -/
theorem C7_counterexample :
    (sync_jira_acl_to_qbusiness (Except.error ()) envNoScheme none
        (fun _ => true)).success = true ∧
    (((sync_jira_acl_to_qbusiness (Except.error ()) envNoScheme none
        (fun _ => true)).success = false) → False) := by
  refine ⟨rfl, by decide⟩

/-- Claim C7, amended: when every project-listing request raises, the
Jira client swallows the failure and returns an empty project list, and
the synchronization run completes normally, returning `success=true` with
zero processed projects, users and groups and no store operations. -/
theorem C7_theorem (env : JiraEnv) (pk : Option (List String))
    (ue : String → Bool) :
    sync_jira_acl_to_qbusiness (Except.error ()) env pk ue
      = { success := true, users_processed := 0, groups_processed := 0,
          projects_processed := 0, all_users := [], all_groups := [],
          ops := [] } := by
  rcases pk with _ | (_ | ⟨k, ks⟩) <;> rfl

/-! ### Claim C8 -/

/-- Claim C8, counterexample: a run over the schemeless project `ORPHAN`
does not abort, but the project contributes nothing to the run's
discovered principal sets — in particular the fallback groups are absent
from them, contradicting the claimed contribution. -/
theorem C8_counterexample :
    (sync_jira_acl_to_qbusiness (Except.ok [{ key := some "ORPHAN" }])
        envNoScheme none (fun _ => true)).success = true ∧
    (sync_jira_acl_to_qbusiness (Except.ok [{ key := some "ORPHAN" }])
        envNoScheme none (fun _ => true)).all_users = [] ∧
    (sync_jira_acl_to_qbusiness (Except.ok [{ key := some "ORPHAN" }])
        envNoScheme none (fun _ => true)).all_groups = [] := by
  refine ⟨rfl, rfl, rfl⟩

/-- Claim C8, amended: when a project's permission scheme cannot be
resolved, the orchestrator run does not abort — the project is skipped
with a warning and contributes nothing to the run's discovered principal
set (it is dropped from principal synchronization); the default-access
fallback principals appear only in the per-document ACL built by
`get_document_acl`. -/
theorem C8_theorem (env : JiraEnv) (ue : String → Bool)
    (h : env.permissionScheme "ORPHAN" = none) :
    (sync_jira_acl_to_qbusiness (Except.ok [{ key := some "ORPHAN" }])
        env none ue).success = true ∧
    (sync_jira_acl_to_qbusiness (Except.ok [{ key := some "ORPHAN" }])
        env none ue).all_users = [] ∧
    (sync_jira_acl_to_qbusiness (Except.ok [{ key := some "ORPHAN" }])
        env none ue).all_groups = [] ∧
    (sync_jira_acl_to_qbusiness (Except.ok [{ key := some "ORPHAN" }])
        env none ue).projects_processed = 0 ∧
    get_document_acl (some env) issueORPHAN = some orphanCfg := by
  have hstep : syncProjectStep env (({} : SyncAcc), 0) { key := some "ORPHAN" }
      = (({} : SyncAcc), 0) := by
    unfold syncProjectStep
    simp [strVal, h]
  have hsync : sync_jira_acl_to_qbusiness (Except.ok [{ key := some "ORPHAN" }])
      env none ue
      = { success := true, users_processed := 0, groups_processed := 0,
          projects_processed := 0, all_users := [], all_groups := [],
          ops := [] } := by
    unfold sync_jira_acl_to_qbusiness get_all_projects
    simp [hstep]
  rw [hsync]
  exact ⟨rfl, rfl, rfl, rfl, orphan_fallback_acl env h⟩

/-- Claim C8, witness: the amended statement at the concrete no-scheme
environment. -/
theorem C8_witness :
    (sync_jira_acl_to_qbusiness (Except.ok [{ key := some "ORPHAN" }])
        envNoScheme none (fun _ => false)).success = true ∧
    (sync_jira_acl_to_qbusiness (Except.ok [{ key := some "ORPHAN" }])
        envNoScheme none (fun _ => false)).all_users = [] ∧
    (sync_jira_acl_to_qbusiness (Except.ok [{ key := some "ORPHAN" }])
        envNoScheme none (fun _ => false)).all_groups = [] ∧
    (sync_jira_acl_to_qbusiness (Except.ok [{ key := some "ORPHAN" }])
        envNoScheme none (fun _ => false)).projects_processed = 0 ∧
    get_document_acl (some envNoScheme) issueORPHAN = some orphanCfg :=
  C8_theorem envNoScheme (fun _ => false) rfl

/-! ### Claim C9 -/

/-- Claim C9: a batch of more than 10 documents is truncated to its first
10 before the single store request — only `docs.take 10` is submitted,
the remaining documents are not uploaded within the call, and the
reported uploaded count never exceeds 10. -/
theorem C9_theorem (docs : List String) (failedOf : List String → List String)
    (h : 10 < docs.length) :
    (batch_put_documents_with_execution_id docs failedOf).2 = docs.take 10 ∧
    (batch_put_documents_with_execution_id docs failedOf).2.length = 10 ∧
    (batch_put_documents_with_execution_id docs failedOf).1.uploaded_count ≤ 10 := by
  have hne : docs.isEmpty = false := by
    cases docs with
    | nil => simp at h
    | cons d ds => rfl
  have hmin : min docs.length 10 = 10 := Nat.min_eq_right h.le
  have hlt : min docs.length 10 < docs.length := by omega
  have hsub : (batch_put_documents_with_execution_id docs failedOf).2 = docs.take 10 := by
    unfold batch_put_documents_with_execution_id
    simp [hne, hmin, hlt]
  have hlen : (docs.take 10).length = 10 := by
    simp [List.length_take]
    omega
  refine ⟨hsub, by rw [hsub, hlen], ?_⟩
  unfold batch_put_documents_with_execution_id
  simp only [hne, Bool.false_eq_true, if_false, hmin, hlt, if_pos]
  rw [if_pos h, hlen]
  omega

/-- Claim C9, witness: an 11-document batch submits exactly the first 10. -/
theorem C9_witness :
    (batch_put_documents_with_execution_id
        ["d1", "d2", "d3", "d4", "d5", "d6", "d7", "d8", "d9", "d10", "d11"]
        (fun _ => [])).2
      = ["d1", "d2", "d3", "d4", "d5", "d6", "d7", "d8", "d9", "d10", "d11"].take 10 ∧
    (batch_put_documents_with_execution_id
        ["d1", "d2", "d3", "d4", "d5", "d6", "d7", "d8", "d9", "d10", "d11"]
        (fun _ => [])).2.length = 10 ∧
    (batch_put_documents_with_execution_id
        ["d1", "d2", "d3", "d4", "d5", "d6", "d7", "d8", "d9", "d10", "d11"]
        (fun _ => [])).1.uploaded_count ≤ 10 :=
  C9_theorem ["d1", "d2", "d3", "d4", "d5", "d6", "d7", "d8", "d9", "d10", "d11"]
    (fun _ => []) (by decide)

/-! ### Claim C10 -/

/-- Claim C10: for an issue whose fields lack a project object with a
truthy key, `get_document_acl` returns `None`, and the batch processor
then leaves the document without any attached access configuration. -/
theorem C10_theorem (env : Option JiraEnv) (issue : Issue) (d : String)
    (h : issue.fields.project = none ∨
      ∃ p, issue.fields.project = some p ∧ strVal p.key = none) :
    get_document_acl env issue = none ∧
    (attach_acl env issue { docId := d }).accessConfiguration = none := by
  have hga : get_document_acl env issue = none := by
    rcases h with h | ⟨p, hp, hk⟩
    · simp [get_document_acl, h]
    · simp [get_document_acl, hp, hk]
  exact ⟨hga, by simp [attach_acl, hga]⟩

/-- Claim C10, witness: an issue with no project object gets no ACL and
its uploaded document carries no access configuration. -/
theorem C10_witness :
    get_document_acl (some envNoScheme) { key := some "X-1", fields := {} } = none ∧
    (attach_acl (some envNoScheme) { key := some "X-1", fields := {} }
        { docId := "doc-X-1" }).accessConfiguration = none :=
  C10_theorem (some envNoScheme) { key := some "X-1", fields := {} } "doc-X-1"
    (Or.inl rfl)

end JiraQ
